import Mathlib

/-!
Verification of the signed-response / validation-cache subsystem of the
tauri-plugin-keygen repository (src/lib.rs and src/client/mod.rs),
shallowly embedded in Lean 4.

External crates (ed25519_dalek point validity and signature verification,
chrono RFC 2822 parsing and the current time, serde_json decoding, the
sha2 body digest) are modelled as explicit oracle parameters bundled in
the structure `Ext`; hex and base64 decoding (crates hex and base64,
STANDARD alphabet with canonical padding) are implemented concretely
because claims depend on their length behaviour.  The filesystem touched
by fs::remove_file is modelled as a list of present paths.

The files src/client/sig.rs, src/err.rs and src/licensed/types.rs are
not part of the provided sources; the definitions marked
"Modelled from the spec:" reconstruct their surface from the spec.
-/

set_option maxRecDepth 16384

namespace Keygen

/-- Modelled from the spec: the error enum of the missing src/err.rs
(taxonomy of section 7: ParseError / BadResponse / BadCache, plus
underlying I/O errors propagated distinctly). -/
inductive Error where
  | ParseErr (msg : String)
  | BadResponse (msg : String)
  | BadCache (msg : String)
  | ioError (msg : String)
deriving DecidableEq

/-- Hex value of one character, as in the hex crate. -/
def hexVal (c : Char) : Option Nat :=
  if '0' ≤ c ∧ c ≤ '9' then some (c.toNat - '0'.toNat)
  else if 'a' ≤ c ∧ c ≤ 'f' then some (c.toNat - 'a'.toNat + 10)
  else if 'A' ≤ c ∧ c ≤ 'F' then some (c.toNat - 'A'.toNat + 10)
  else none

/-- Hex decoding of a character list, two characters per byte;
odd length or a non-hex character fails. -/
def hexDecodeList : List Char → Option (List Nat)
  | [] => some []
  | [_] => none
  | c1 :: c2 :: rest => do
      let h ← hexVal c1
      let l ← hexVal c2
      let r ← hexDecodeList rest
      pure ((16 * h + l) :: r)

/-- hex::decode of the hex crate, on strings. -/
def hexDecode (s : String) : Option (List Nat) := hexDecodeList s.data

/-- Base64 value of one character of the STANDARD alphabet. -/
def b64Val (c : Char) : Option Nat :=
  if 'A' ≤ c ∧ c ≤ 'Z' then some (c.toNat - 'A'.toNat)
  else if 'a' ≤ c ∧ c ≤ 'z' then some (c.toNat - 'a'.toNat + 26)
  else if '0' ≤ c ∧ c ≤ '9' then some (c.toNat - '0'.toNat + 52)
  else if c = '+' then some 62
  else if c = '/' then some 63
  else none

/-- Base64 decoding, four characters per chunk, canonical padding
required (trailing bits must be zero), as the base64 crate's
general_purpose::STANDARD engine checks by default. -/
def b64DecodeChunks : List Char → Option (List Nat)
  | [] => some []
  | [c1, c2, '=', '='] => do
      let a ← b64Val c1
      let b ← b64Val c2
      if b % 16 = 0 then pure [a * 4 + b / 16] else none
  | [c1, c2, c3, '='] => do
      let a ← b64Val c1
      let b ← b64Val c2
      let c ← b64Val c3
      if c % 4 = 0 then pure [a * 4 + b / 16, (b % 16) * 16 + c / 4] else none
  | c1 :: c2 :: c3 :: c4 :: rest => do
      let a ← b64Val c1
      let b ← b64Val c2
      let c ← b64Val c3
      let d ← b64Val c4
      let r ← b64DecodeChunks rest
      pure ((a * 4 + b / 16) :: ((b % 16) * 16 + c / 4) :: ((c % 4) * 64 + d) :: r)
  | _ => none

/-- base64::engine::general_purpose::STANDARD.decode, on strings. -/
def b64Decode (s : String) : Option (List Nat) := b64DecodeChunks s.data

/-- Whole minutes of a signed duration given in seconds:
chrono's Duration::num_minutes truncates toward zero. -/
def numMinutes (secs : Int) : Int := Int.tdiv secs 60

/-- External-world oracles: ed25519_dalek (is a 32-byte string a valid
verifying key; does a signature verify over a message), chrono (RFC 2822
parse to seconds since epoch; the current time), the sha2 body digest
formatted as the Digest header value, and serde_json decoding into the
LicenseResponse shape (J is the serde_json::Value type, L the
LicenseResponse type of the missing src/licensed/types.rs). -/
structure Ext (J L : Type) where
  keyValid : List Nat → Bool
  edVerify : List Nat → String → List Nat → Bool
  parseRfc2822 : String → Option Int
  now : Int
  digestOf : String → String
  parseJson : String → Option J
  licenseFromJson : J → Option L

/-- The KeygenClient struct of src/client/mod.rs (the reqwest http_client
field is transport plumbing, out of scope). -/
structure KeygenClient where
  accountId : String
  verifyKey : String
  apiUrl : String
  apiVersion : String
  maxClockDrift : Int
  cacheLifetime : Int
deriving DecidableEq

/-- KeygenClient::new of src/client/mod.rs: stores its arguments and
fixes max_clock_drift to 5 minutes. -/
def KeygenClient.new (accountId verifyKey apiUrl apiVersion : String)
    (cacheLifetime : Int) (userAgent : String) : KeygenClient :=
  { accountId := accountId
    verifyKey := verifyKey
    apiUrl := apiUrl
    apiVersion := apiVersion
    maxClockDrift := 5
    cacheLifetime := cacheLifetime }

/-- The KeygenResponseCache struct of src/client/mod.rs. -/
structure KeygenResponseCache where
  sig : String
  target : String
  host : String
  date : String
  body : String
deriving DecidableEq

/-- The Builder struct of src/lib.rs (tauri plumbing omitted). -/
structure Builder where
  customDomain : Option String
  apiUrl : Option String
  accountId : Option String
  verifyKey : String
  versionHeader : Option String
  cacheLifetime : Int
deriving DecidableEq

/-- Builder::new of src/lib.rs. -/
def Builder.new (accountId verifyKey : String) : Builder :=
  { customDomain := none
    apiUrl := some "https://api.keygen.sh"
    accountId := some accountId
    verifyKey := verifyKey
    versionHeader := none
    cacheLifetime := 240 }

/-- Builder::cache_lifetime of src/lib.rs (named withCacheLifetime here
because the field accessor already takes the source name): clamps the
argument to [60, 1440], Rust's i64::clamp. -/
def Builder.withCacheLifetime (b : Builder) (n : Int) : Builder :=
  { b with cacheLifetime := max 60 (min n 1440) }


/-- The request URL parts this subsystem reads (reqwest::Url is
external): the host and the path-plus-query. -/
structure Url where
  host : String
  pathAndQuery : String
deriving DecidableEq

/-- Modelled from the spec: the parsed Signature header parameters of the
missing src/client/sig.rs (section 3, SignatureParameters): keyId,
algorithm, ordered signed-header names, signature value. -/
structure SigParams where
  keyId : String
  algorithm : String
  headerNames : List String
  signature : String
deriving DecidableEq

/-- Join lines with newlines (the canonical-string concatenation). -/
def joinLines : List String → String
  | [] => ""
  | [l] => l
  | l :: rest => l ++ "\n" ++ joinLines rest

/-- ASCII lower-casing of one character (header names and the request
method are ASCII). -/
def lowerChar (c : Char) : Char :=
  if 'A' ≤ c ∧ c ≤ 'Z' then Char.ofNat (c.toNat + 32) else c

/-- ASCII lower-casing of a string. -/
def lowerStr (s : String) : String := ⟨s.data.map lowerChar⟩

/-- Split a character list at every occurrence of the separator. -/
def splitOnChar (sep : Char) : List Char → List (List Char)
  | [] => [[]]
  | c :: rest =>
    match splitOnChar sep rest with
    | [] => [[c]]
    | r :: rs => if c = sep then [] :: r :: rs else (c :: r) :: rs

/-- Drop spaces at both ends. -/
def trimChars (l : List Char) : List Char :=
  ((l.dropWhile (fun c => c = ' ')).reverse.dropWhile (fun c => c = ' ')).reverse

/-- Split a character list at the first occurrence of the equals-quote
separator of a name="value" item; the value may itself contain equals
signs (base64 padding). -/
def splitKV : List Char → Option (List Char × List Char)
  | [] => none
  | '=' :: '\x22' :: rest => some ([], rest)
  | c :: rest => (splitKV rest).map (fun p => (c :: p.1, p.2))

/-- One item of the Signature header: name="value". -/
def parseKV (item : String) : Option (String × String) :=
  match splitKV (trimChars item.data) with
  | none => none
  | some (name, rest) =>
    match rest.reverse with
    | '\x22' :: v => some (⟨name⟩, ⟨v.reverse⟩)
    | _ => none

/-- Modelled from the spec: parsing of the Signature header value
(section 3 and 4.1) of the missing src/client/sig.rs; malformed syntax
or a missing parameter is a parse failure. -/
def parseSigHeader (s : String) : Option SigParams := do
  let kvs ← ((splitOnChar ',' s.data).map (fun l => String.mk l)).mapM parseKV
  let keyId ← kvs.lookup "keyid"
  let alg ← kvs.lookup "algorithm"
  let sigv ← kvs.lookup "signature"
  let hdrs ← kvs.lookup "headers"
  pure { keyId := keyId
         algorithm := alg
         headerNames :=
           ((splitOnChar ' ' hdrs.data).map (fun l => String.mk l)).filter (fun n => n ≠ "")
         signature := sigv }

/-- A response header map; reqwest's HeaderMap looks names up
case-insensitively. -/
def headerGet (hs : List (String × String)) (name : String) : Option String :=
  (hs.find? (fun p => lowerStr p.fst = lowerStr name)).map Prod.snd

/-- Modelled from the spec: the KeygenSig bundle of the missing
src/client/sig.rs; the accessors used by src/client/mod.rs are the
fields (to_string is the signature field). -/
structure KeygenSig where
  signature : String
  target : String
  host : String
  date : String
  digest : String
  data : String
deriving DecidableEq

/-- Modelled from the spec: KeygenSig::from_response of the missing
src/client/sig.rs (section 4.1): parse the Signature header, resolve
each named header — (request-target) from the lower-cased method and
path+query, host from the request URL, date from the response headers,
digest always recomputed from the body — and join "name: value" lines
with newlines in the parameter order; a missing or malformed header is
a ParseErr. -/
def fromResponse (digestOf : String → String) (reqMethod : String) (reqUrl : Url)
    (resHeaders : List (String × String)) (resText : String) :
    Except Error KeygenSig :=
  match headerGet resHeaders "signature" with
  | none => Except.error (Error.ParseErr "Missing header: Signature")
  | some raw =>
    match parseSigHeader raw with
    | none => Except.error (Error.ParseErr "Malformed Signature header")
    | some params =>
      let target := lowerStr reqMethod ++ " " ++ reqUrl.pathAndQuery
      let host := reqUrl.host
      match headerGet resHeaders "date" with
      | none => Except.error (Error.ParseErr "Missing header: Date")
      | some date =>
        let digest := digestOf resText
        match params.headerNames.mapM (fun name =>
          match name with
          | "(request-target)" => Except.ok ("(request-target): " ++ target)
          | "host" => Except.ok ("host: " ++ host)
          | "date" => Except.ok ("date: " ++ date)
          | "digest" => Except.ok ("digest: " ++ digest)
          | other =>
            match headerGet resHeaders other with
            | some v => Except.ok (other ++ ": " ++ v)
            | none => Except.error (Error.ParseErr ("Missing header: " ++ other))) with
        | Except.error e => Except.error e
        | Except.ok lines =>
          Except.ok { signature := params.signature
                      target := target
                      host := host
                      date := date
                      digest := digest
                      data := joinLines lines }

/-- Modelled from the spec: KeygenSig::from_response_cache of the missing
src/client/sig.rs (section 4.1, cache constructor): rebuild the bundle
from the record's stored target, host and date with the digest
recomputed from the stored body; infallible (called without ? in
src/client/mod.rs). -/
def fromResponseCache (digestOf : String → String) (resCache : KeygenResponseCache) :
    KeygenSig :=
  let digest := digestOf resCache.body
  { signature := resCache.sig
    target := resCache.target
    host := resCache.host
    date := resCache.date
    digest := digest
    data := "(request-target): " ++ resCache.target ++ "\nhost: " ++ resCache.host ++
            "\ndate: " ++ resCache.date ++ "\ndigest: " ++ digest }

/-- KeygenClient::verify_signature of src/client/mod.rs, with the
ed25519_dalek oracles explicit: hex-decode the verify key into exactly
32 bytes, build the verifying key, base64-decode the signature into
exactly 64 bytes, then run the primitive; each failure is the ParseErr
of the source. -/
def verifySignature (verifyKey : String) (keyValid : List Nat → Bool)
    (edVerify : List Nat → String → List Nat → Bool)
    (data signature : String) : Except Error Unit :=
  match hexDecode verifyKey with
  | none => Except.error (Error.ParseErr "Failed parsing verify key to bytes")
  | some keyBytes =>
    if keyBytes.length = 32 then
      if keyValid keyBytes then
        match b64Decode signature with
        | none => Except.error (Error.ParseErr "Failed decoding signature")
        | some sigBytes =>
          if sigBytes.length = 64 then
            if edVerify keyBytes data sigBytes then Except.ok ()
            else Except.error (Error.ParseErr "Invalid signature")
          else Except.error (Error.ParseErr "Invalid signature format")
      else Except.error (Error.ParseErr "Failed parsing verifying key")
    else Except.error (Error.ParseErr "Failed parsing verify key to bytes")

/-- The final step of verify_response in src/client/mod.rs: on Ok build
the KeygenResponseCache record, on Err collapse to
BadResponse "Invalid Signature". -/
def signatureStep {J L : Type} (c : KeygenClient) (ext : Ext J L)
    (sig : KeygenSig) (resText : String) : Except Error KeygenResponseCache :=
  match verifySignature c.verifyKey ext.keyValid ext.edVerify sig.data sig.signature with
  | Except.ok _ =>
      Except.ok { sig := sig.signature
                  target := sig.target
                  host := sig.host
                  date := sig.date
                  body := resText }
  | Except.error _ => Except.error (Error.BadResponse "Invalid Signature")

/-- KeygenClient::verify_response of src/client/mod.rs: signature-header
parsing, Digest header lookup, digest equality, RFC 2822 date parse,
clock-drift freshness, then cryptographic verification, short-circuiting
in that order. -/
def verifyResponse {J L : Type} (c : KeygenClient) (ext : Ext J L)
    (reqMethod : String) (reqUrl : Url)
    (resHeaders : List (String × String)) (resText : String) :
    Except Error KeygenResponseCache :=
  match fromResponse ext.digestOf reqMethod reqUrl resHeaders resText with
  | Except.error e => Except.error e
  | Except.ok sig =>
    match headerGet resHeaders "digest" with
    | none => Except.error (Error.BadResponse "Missing header: Digest")
    | some resDigest =>
      if sig.digest = resDigest then
        match ext.parseRfc2822 sig.date with
        | none => Except.error (Error.BadResponse "Invalid signature date")
        | some dateTime =>
          if 0 ≤ c.maxClockDrift ∧ numMinutes (ext.now - dateTime) > c.maxClockDrift then
            Except.error (Error.BadResponse "Request date too old")
          else signatureStep c ext sig resText
      else Except.error (Error.BadResponse "Digest didn't match")

/-- The filesystem as the list of present paths. -/
abbrev FS := List String

/-- std::fs::remove_file: removes the file, or fails with a NotFound
I/O error when the path is absent. -/
def removeFile (fs : FS) (p : String) : Except Error FS :=
  if p ∈ fs then Except.ok (fs.filter (fun q => q ≠ p))
  else Except.error (Error.ioError "No such file or directory")

/-- KeygenClient::verify_response_cache of src/client/mod.rs, with the
filesystem explicit: rebuild the KeygenSig from the record, parse the
stored date, expire against cache_lifetime (deleting the file), verify
the signature (deleting the file on failure), then decode the stored
body (without deleting the file on failure).  A remove_file error is
propagated by ? and leaves the filesystem unchanged. -/
def verifyResponseCache {J L : Type} (c : KeygenClient) (ext : Ext J L)
    (resCache : KeygenResponseCache) (cachePath : String) (fs : FS) :
    Except Error L × FS :=
  let resText := resCache.body
  let sig := fromResponseCache ext.digestOf resCache
  match ext.parseRfc2822 sig.date with
  | none => (Except.error (Error.BadCache "Failed parsing cached response date"), fs)
  | some dateTime =>
    if numMinutes (ext.now - dateTime) > c.cacheLifetime then
      match removeFile fs cachePath with
      | Except.error e => (Except.error e, fs)
      | Except.ok fs2 => (Except.error (Error.BadCache "Validation cache has expired"), fs2)
    else
      match verifySignature c.verifyKey ext.keyValid ext.edVerify sig.data sig.signature with
      | Except.ok _ =>
        match ext.parseJson resText with
        | none => (Except.error (Error.BadCache "Failed parsing cached response body"), fs)
        | some j =>
          match ext.licenseFromJson j with
          | none => (Except.error (Error.BadCache "Failed deserializing license response"), fs)
          | some lic => (Except.ok lic, fs)
      | Except.error _ =>
        match removeFile fs cachePath with
        | Except.error e => (Except.error e, fs)
        | Except.ok fs2 => (Except.error (Error.BadCache "Invalid Signature"), fs2)

/-- A hex key that fails the fixed 32-byte length (bad characters or
wrong decoded length), as a computable check. -/
def badKeyHex (vk : String) : Bool :=
  match hexDecode vk with
  | none => true
  | some bs => bs.length ≠ 32

/-- A base64 signature that fails the fixed 64-byte length (bad
encoding or wrong decoded length), as a computable check. -/
def badSigB64 (s : String) : Bool :=
  match b64Decode s with
  | none => true
  | some bs => bs.length ≠ 64

/-! Concrete fixtures used by witnesses and counterexamples: a 32-byte
all-zero verify key in hex, a 64-byte all-zero signature in base64, a
minimal signed response, and oracle bundles driving each branch. -/

/-- A 64-character hex string decoding to the 32 zero bytes. -/
def vk0 : String := "0000000000000000000000000000000000000000000000000000000000000000"

/-- An 88-character base64 string decoding to the 64 zero bytes. -/
def sigA : String :=
  "AAAAAAAAAAAAAAAAAAAAAAAAAAAAAAAAAAAAAAAAAAAAAAAAAAAAAAAAAAAAAAAAAAAAAAAAAAAAAAAAAAAAAA=="

/-- A request URL fixture. -/
def uW : Url := { host := "h", pathAndQuery := "/p" }

/-- Response headers fixture: a well-formed Signature header carrying
sigA, a Date header and a Digest header matching the digest oracle. -/
def hsW : List (String × String) :=
  [("Signature", "keyid=\x22k1\x22, algorithm=\x22ed25519\x22, signature=\x22" ++ sigA ++
      "\x22, headers=\x22(request-target) host date digest\x22"),
   ("Date", "D"),
   ("Digest", "sha-256=X")]

/-- Same as hsW but with a Digest header that does not match the
recomputed body digest. -/
def hsY : List (String × String) :=
  [("Signature", "keyid=\x22k1\x22, algorithm=\x22ed25519\x22, signature=\x22" ++ sigA ++
      "\x22, headers=\x22(request-target) host date digest\x22"),
   ("Date", "D"),
   ("Digest", "sha-256=Y")]

/-- All-accepting oracles: every key point is valid, every signature
verifies, every date parses to second 0, now is second 0, the body
digest is the fixed header value, decoding always succeeds. -/
def extW : Ext Unit Unit :=
  { keyValid := fun _ => true
    edVerify := fun _ _ _ => true
    parseRfc2822 := fun _ => some 0
    now := 0
    digestOf := fun _ => "sha-256=X"
    parseJson := fun _ => some ()
    licenseFromJson := fun _ => some () }

/-- Like extW but serde_json parsing of the body fails. -/
def extNoJson : Ext Unit Unit := { extW with parseJson := fun _ => none }

/-- Like extW but deserializing the parsed json value into the
LicenseResponse shape fails. -/
def extNoLic : Ext Unit Unit := { extW with licenseFromJson := fun _ => none }

/-- Like extW but now is 100000 minutes after the response date. -/
def extStale : Ext Unit Unit := { extW with now := 6000000 }

/-- Like extW but now is exactly 5 minutes after the response date
(second 0), the drift window of the fixed max_clock_drift. -/
def extBoundary : Ext Unit Unit := { extW with now := 300 }

/-- A fully configured client fixture (cache_lifetime 240 minutes). -/
def cW : KeygenClient := KeygenClient.new "acme" vk0 "https://api.keygen.sh" "v1" 240 "ua"

/-- The cache record the hsW response verifies to. -/
def rcW : KeygenResponseCache :=
  { sig := sigA, target := "get /p", host := "h", date := "D", body := "B" }

/-- The KeygenSig bundle fromResponse produces on the hsW fixture. -/
def sigW : KeygenSig :=
  { signature := sigA
    target := "get /p"
    host := "h"
    date := "D"
    digest := "sha-256=X"
    data := "(request-target): get /p\nhost: h\ndate: D\ndigest: sha-256=X" }

/-- Exact division of whole minutes: 60 times d seconds truncates back
to d minutes. -/
theorem numMinutes_sixty_mul (d : Int) : numMinutes (60 * d) = d := by
  unfold numMinutes
  exact Int.mul_tdiv_cancel_left d (by norm_num)

/-- C9: for all constructor arguments, the client returned by
KeygenClient::new has max_clock_drift equal to 5 minutes, hence never
negative, so the negative-drift disable path of the live-freshness
check is unreachable through this constructor. -/
theorem C9_max_clock_drift_fixed (a vk au av ua : String) (cl : Int) :
    (KeygenClient.new a vk au av cl ua).maxClockDrift = 5 ∧
    0 ≤ (KeygenClient.new a vk au av cl ua).maxClockDrift :=
  ⟨rfl, by norm_num [KeygenClient.new]⟩

/-- C8: the lifetime set through Builder::cache_lifetime is clamped to
[60, 1440] at configuration time, and KeygenClient::new stores any
lifetime value unchanged (no clamping at construction or at use). -/
theorem C8_cache_lifetime_clamped (b : Builder) (n : Int) (a vk au av ua : String) :
    60 ≤ (b.withCacheLifetime n).cacheLifetime ∧
    (b.withCacheLifetime n).cacheLifetime ≤ 1440 ∧
    (KeygenClient.new a vk au av (b.withCacheLifetime n).cacheLifetime ua).cacheLifetime
      = (b.withCacheLifetime n).cacheLifetime ∧
    (∀ m : Int, (KeygenClient.new a vk au av m ua).cacheLifetime = m) :=
  ⟨le_max_left _ _, max_le (by norm_num) (min_le_right _ _), rfl, fun _ => rfl⟩

/-- C2: whenever the hex verify key does not decode to exactly 32 bytes,
or the base64 signature does not decode to exactly 64 bytes,
verify_signature returns a parse error whose message is not the
cryptographic-failure message, and the result is the same for every
verification primitive — the primitive never runs. -/
theorem C2_parse_error_before_crypto (vk : String) (kV : List Nat → Bool)
    (data signature : String)
    (h : badKeyHex vk = true ∨ badSigB64 signature = true) :
    ∃ msg, msg ≠ "Invalid signature" ∧
      ∀ eV, verifySignature vk kV eV data signature
        = Except.error (Error.ParseErr msg) := by
  cases hk : hexDecode vk with
  | none =>
      refine ⟨"Failed parsing verify key to bytes", by decide, fun eV => ?_⟩
      simp [verifySignature, hk]
  | some bs =>
      by_cases hl : bs.length = 32
      · have hsig : badSigB64 signature = true := by
          rcases h with h | h
          · exfalso
            simp [badKeyHex, hk, hl] at h
          · exact h
        by_cases hv : kV bs = true
        · cases hb : b64Decode signature with
          | none =>
              refine ⟨"Failed decoding signature", by decide, fun eV => ?_⟩
              simp [verifySignature, hk, hl, hv, hb]
          | some sb =>
              have hsl : sb.length ≠ 64 := by
                simpa [badSigB64, hb] using hsig
              refine ⟨"Invalid signature format", by decide, fun eV => ?_⟩
              simp [verifySignature, hk, hl, hv, hb, hsl]
        · refine ⟨"Failed parsing verifying key", by decide, fun eV => ?_⟩
          simp [verifySignature, hk, hl, hv]
      · refine ⟨"Failed parsing verify key to bytes", by decide, fun eV => ?_⟩
        simp [verifySignature, hk, hl]

/-- Witness for C2 at the concrete non-hex key "zz". -/
theorem C2_witness :
    badKeyHex "zz" = true ∧
    (∃ msg, msg ≠ "Invalid signature" ∧
      ∀ eV, verifySignature "zz" (fun _ => true) eV "msg" "AAAA"
        = Except.error (Error.ParseErr msg)) :=
  ⟨rfl, C2_parse_error_before_crypto "zz" (fun _ => true) "msg" "AAAA" (Or.inl rfl)⟩

/-- C3 counterexample: with a well-formed key (vk0, 32 bytes) and a
well-formed signature (sigA, 64 bytes), a rejecting verification
primitive makes verify_signature return Error.ParseErr — the very
ParseError class the claim says the outcome is distinct from. -/
theorem C3_counterexample :
    verifySignature vk0 (fun _ => true) (fun _ _ _ => false) "msg" sigA
      = Except.error (Error.ParseErr "Invalid signature") := rfl

/-- C3 amended: for every well-formed key and signature, a rejecting
primitive collapses to the single opaque outcome
Error.ParseErr "Invalid signature" — one fixed error value carrying no
information about the failure, but reported through the same ParseErr
variant used for structurally malformed input (the verify_response call
sites remap it to BadResponse/BadCache "Invalid Signature"). -/
theorem C3_amended (vk : String) (kV : List Nat → Bool)
    (eV : List Nat → String → List Nat → Bool) (data signature : String)
    (kb sb : List Nat)
    (hk : hexDecode vk = some kb) (hkl : kb.length = 32) (hkv : kV kb = true)
    (hb : b64Decode signature = some sb) (hsl : sb.length = 64)
    (hrej : eV kb data sb = false) :
    verifySignature vk kV eV data signature
      = Except.error (Error.ParseErr "Invalid signature") := by
  simp [verifySignature, hk, hkl, hkv, hb, hsl, hrej]

/-- Witness for the amended C3 at the concrete zero key and signature. -/
theorem C3_amended_witness :
    hexDecode vk0 = some (List.replicate 32 0) ∧
    (List.replicate 32 (0 : Nat)).length = 32 ∧
    b64Decode sigA = some (List.replicate 64 0) ∧
    (List.replicate 64 (0 : Nat)).length = 64 ∧
    verifySignature vk0 (fun _ => true) (fun _ _ _ => false) "msg" sigA
      = Except.error (Error.ParseErr "Invalid signature") :=
  ⟨rfl, rfl, rfl, rfl,
   C3_amended vk0 (fun _ => true) (fun _ _ _ => false) "msg" sigA
     (List.replicate 32 0) (List.replicate 64 0) rfl rfl rfl rfl rfl rfl⟩

/-- C5 counterexample: a first failed (expired) verification deletes the
cache file; running the same failed verification again on the now-absent
file returns an I/O error — the second invocation of the delete path
does produce an error. -/
theorem C5_counterexample :
    verifyResponseCache cW extStale rcW "k" ["k"]
      = (Except.error (Error.BadCache "Validation cache has expired"), ([] : FS)) ∧
    verifyResponseCache cW extStale rcW "k" ([] : FS)
      = (Except.error (Error.ioError "No such file or directory"), ([] : FS)) :=
  ⟨rfl, rfl⟩

/-- C5 amended: the cache delete-on-failure path is not idempotent —
deleting an already-absent cache file fails with a NotFound I/O error,
which verify_response_cache propagates to the caller in place of the
BadCache error. -/
theorem C5_amended {J L : Type} (c : KeygenClient) (ext : Ext J L)
    (rc : KeygenResponseCache) (p : String) (fs : FS) (d : Int)
    (habs : p ∉ fs) (hdate : ext.parseRfc2822 rc.date = some d)
    (hexp : numMinutes (ext.now - d) > c.cacheLifetime) :
    removeFile fs p = Except.error (Error.ioError "No such file or directory") ∧
    verifyResponseCache c ext rc p fs
      = (Except.error (Error.ioError "No such file or directory"), fs) := by
  have hrm : removeFile fs p = Except.error (Error.ioError "No such file or directory") := by
    simp [removeFile, habs]
  refine ⟨hrm, ?_⟩
  simp [verifyResponseCache, fromResponseCache, hdate, hexp, hrm]

/-- Witness for the amended C5: the expired record with no backing file. -/
theorem C5_amended_witness :
    ("k" ∉ ([] : FS)) ∧ extStale.parseRfc2822 rcW.date = some 0 ∧
    numMinutes (extStale.now - 0) > cW.cacheLifetime ∧
    (removeFile ([] : FS) "k" = Except.error (Error.ioError "No such file or directory") ∧
     verifyResponseCache cW extStale rcW "k" ([] : FS)
       = (Except.error (Error.ioError "No such file or directory"), ([] : FS))) :=
  ⟨by simp, rfl, by decide,
   C5_amended cW extStale rcW "k" [] 0 (by simp) rfl (by decide)⟩

/-- C1 counterexample: a cache record whose signature re-verifies and
whose date is fresh, but whose body fails to decode, makes
verify_response_cache return the BadCache decode error while the
backing cache file is left in place — the record is still retrievable,
so the delete-on-any-failure claim is false on the decode path. -/
theorem C1_counterexample :
    (verifyResponseCache cW extNoJson rcW "cache.json" ["cache.json"]).1
      = Except.error (Error.BadCache "Failed parsing cached response body") ∧
    (verifyResponseCache cW extNoJson rcW "cache.json" ["cache.json"]).2
      = ["cache.json"] :=
  ⟨rfl, rfl⟩

/-- C1 amended: verify_response_cache deletes the backing cache file
before returning BadCache on the expired path and on the
invalid-signature path, but on either body-decode failure — the json
parse of the body or the deserialization of the parsed value into the
license payload — it returns the BadCache error without touching the
file, which stays present. -/
theorem C1_amended {J L : Type} (c : KeygenClient) (ext : Ext J L)
    (rc : KeygenResponseCache) (p : String) (fs : FS) (d : Int)
    (hdate : ext.parseRfc2822 rc.date = some d) (hmem : p ∈ fs) :
    (numMinutes (ext.now - d) > c.cacheLifetime →
      verifyResponseCache c ext rc p fs
        = (Except.error (Error.BadCache "Validation cache has expired"),
           fs.filter (fun q => q ≠ p))) ∧
    (numMinutes (ext.now - d) ≤ c.cacheLifetime →
      (∀ e, verifySignature c.verifyKey ext.keyValid ext.edVerify
          (fromResponseCache ext.digestOf rc).data rc.sig = Except.error e →
        verifyResponseCache c ext rc p fs
          = (Except.error (Error.BadCache "Invalid Signature"),
             fs.filter (fun q => q ≠ p))) ∧
      (verifySignature c.verifyKey ext.keyValid ext.edVerify
          (fromResponseCache ext.digestOf rc).data rc.sig = Except.ok () →
        (ext.parseJson rc.body = none →
          verifyResponseCache c ext rc p fs
            = (Except.error (Error.BadCache "Failed parsing cached response body"),
               fs)) ∧
        (∀ j, ext.parseJson rc.body = some j → ext.licenseFromJson j = none →
          verifyResponseCache c ext rc p fs
            = (Except.error (Error.BadCache "Failed deserializing license response"),
               fs)))) := by
  have hrm : removeFile fs p = Except.ok (fs.filter (fun q => q ≠ p)) := by
    simp [removeFile, hmem]
  refine ⟨fun hexp => ?_,
    fun hfresh => ⟨fun e he => ?_, fun hok => ⟨fun hj => ?_, fun j hj hlic => ?_⟩⟩⟩
  · simp [verifyResponseCache, fromResponseCache, hdate, hexp, hrm]
  · simp only [fromResponseCache] at he
    simp [verifyResponseCache, fromResponseCache, hdate, not_lt.mpr hfresh, he, hrm]
  · simp only [fromResponseCache] at hok
    simp [verifyResponseCache, fromResponseCache, hdate, not_lt.mpr hfresh, hok, hj]
  · simp only [fromResponseCache] at hok
    simp [verifyResponseCache, fromResponseCache, hdate, not_lt.mpr hfresh, hok, hj, hlic]

/-- Witness for the amended C1 at the concrete fixtures: fresh, valid
signature, body whose deserialization into the license payload fails;
the file survives the BadCache error. -/
theorem C1_amended_witness :
    extNoLic.parseRfc2822 rcW.date = some 0 ∧ "cache.json" ∈ (["cache.json"] : FS) ∧
    ((numMinutes (extNoLic.now - 0) > cW.cacheLifetime →
      verifyResponseCache cW extNoLic rcW "cache.json" ["cache.json"]
        = (Except.error (Error.BadCache "Validation cache has expired"),
           (["cache.json"] : FS).filter (fun q => q ≠ "cache.json"))) ∧
    (numMinutes (extNoLic.now - 0) ≤ cW.cacheLifetime →
      (∀ e, verifySignature cW.verifyKey extNoLic.keyValid extNoLic.edVerify
          (fromResponseCache extNoLic.digestOf rcW).data rcW.sig = Except.error e →
        verifyResponseCache cW extNoLic rcW "cache.json" ["cache.json"]
          = (Except.error (Error.BadCache "Invalid Signature"),
             (["cache.json"] : FS).filter (fun q => q ≠ "cache.json"))) ∧
      (verifySignature cW.verifyKey extNoLic.keyValid extNoLic.edVerify
          (fromResponseCache extNoLic.digestOf rcW).data rcW.sig = Except.ok () →
        (extNoLic.parseJson rcW.body = none →
          verifyResponseCache cW extNoLic rcW "cache.json" ["cache.json"]
            = (Except.error (Error.BadCache "Failed parsing cached response body"),
               (["cache.json"] : FS))) ∧
        (∀ j, extNoLic.parseJson rcW.body = some j → extNoLic.licenseFromJson j = none →
          verifyResponseCache cW extNoLic rcW "cache.json" ["cache.json"]
            = (Except.error (Error.BadCache "Failed deserializing license response"),
               (["cache.json"] : FS)))))) :=
  ⟨rfl, by simp,
   C1_amended cW extNoLic rcW "cache.json" ["cache.json"] 0 rfl (by simp)⟩

/-- When parsing, digest and freshness all pass, verify_response
reduces to the signature step. -/
theorem verifyResponse_fresh {J L : Type} (c : KeygenClient) (ext : Ext J L)
    (m : String) (u : Url) (hs : List (String × String)) (t : String)
    (sig : KeygenSig) (rd : String) (dt : Int)
    (hsig : fromResponse ext.digestOf m u hs t = Except.ok sig)
    (hrd : headerGet hs "digest" = some rd) (heq : sig.digest = rd)
    (hdt : ext.parseRfc2822 sig.date = some dt)
    (hc : ¬(0 ≤ c.maxClockDrift ∧ numMinutes (ext.now - dt) > c.maxClockDrift)) :
    verifyResponse c ext m u hs t = signatureStep c ext sig t := by
  simp [verifyResponse, hsig, hrd, heq, hdt, hc]

/-- When parsing and digest pass but the response date exceeds the
drift window, verify_response fails with the stale error. -/
theorem verifyResponse_stale {J L : Type} (c : KeygenClient) (ext : Ext J L)
    (m : String) (u : Url) (hs : List (String × String)) (t : String)
    (sig : KeygenSig) (rd : String) (dt : Int)
    (hsig : fromResponse ext.digestOf m u hs t = Except.ok sig)
    (hrd : headerGet hs "digest" = some rd) (heq : sig.digest = rd)
    (hdt : ext.parseRfc2822 sig.date = some dt)
    (hc : 0 ≤ c.maxClockDrift ∧ numMinutes (ext.now - dt) > c.maxClockDrift) :
    verifyResponse c ext m u hs t
      = Except.error (Error.BadResponse "Request date too old") := by
  simp [verifyResponse, hsig, hrd, heq, hdt, hc]

/-- C4: the live-freshness check of verify_response with drift setting
d: a negative d skips the check for every parseable response date; for
d at least 0, a response dated exactly d minutes before now passes (the
function proceeds to signature verification), and a response one minute
older fails with BadResponse, the stale error. -/
theorem C4_freshness_boundary {J L : Type} (c : KeygenClient) (ext : Ext J L)
    (m : String) (u : Url) (hs : List (String × String)) (t : String)
    (sig : KeygenSig) (d : Int)
    (hd : c.maxClockDrift = d)
    (hsig : fromResponse ext.digestOf m u hs t = Except.ok sig)
    (hdig : headerGet hs "digest" = some sig.digest) :
    (d < 0 → ∀ dt, ext.parseRfc2822 sig.date = some dt →
      verifyResponse c ext m u hs t = signatureStep c ext sig t) ∧
    (0 ≤ d → ext.parseRfc2822 sig.date = some (ext.now - 60 * d) →
      verifyResponse c ext m u hs t = signatureStep c ext sig t) ∧
    (0 ≤ d → ext.parseRfc2822 sig.date = some (ext.now - 60 * (d + 1)) →
      verifyResponse c ext m u hs t
        = Except.error (Error.BadResponse "Request date too old")) := by
  refine ⟨fun hneg dt hdt => ?_, fun hpos hdt => ?_, fun hpos hdt => ?_⟩
  · exact verifyResponse_fresh c ext m u hs t sig sig.digest dt hsig hdig rfl hdt
      (fun hcon => absurd hcon.1 (by omega))
  · refine verifyResponse_fresh c ext m u hs t sig sig.digest _ hsig hdig rfl hdt ?_
    have h60 : ext.now - (ext.now - 60 * d) = 60 * d := by ring
    rw [h60, numMinutes_sixty_mul, hd]
    omega
  · refine verifyResponse_stale c ext m u hs t sig sig.digest _ hsig hdig rfl hdt ?_
    have h60 : ext.now - (ext.now - 60 * (d + 1)) = 60 * (d + 1) := by ring
    rw [h60, numMinutes_sixty_mul, hd]
    omega

/-- Witness for C4 at the concrete fixtures: drift 5, a response dated
exactly 5 minutes before now (second 0, now second 300). -/
theorem C4_witness :
    cW.maxClockDrift = 5 ∧
    fromResponse extBoundary.digestOf "GET" uW hsW "B" = Except.ok sigW ∧
    headerGet hsW "digest" = some sigW.digest ∧
    (((5 : Int) < 0 → ∀ dt, extBoundary.parseRfc2822 sigW.date = some dt →
      verifyResponse cW extBoundary "GET" uW hsW "B" = signatureStep cW extBoundary sigW "B") ∧
    ((0 : Int) ≤ 5 → extBoundary.parseRfc2822 sigW.date = some (extBoundary.now - 60 * 5) →
      verifyResponse cW extBoundary "GET" uW hsW "B" = signatureStep cW extBoundary sigW "B") ∧
    ((0 : Int) ≤ 5 → extBoundary.parseRfc2822 sigW.date = some (extBoundary.now - 60 * (5 + 1)) →
      verifyResponse cW extBoundary "GET" uW hsW "B"
        = Except.error (Error.BadResponse "Request date too old"))) :=
  ⟨rfl, rfl, rfl,
   C4_freshness_boundary cW extBoundary "GET" uW hsW "B" sigW 5 rfl rfl rfl⟩

/-- C6: verify_response runs signature-header parsing, then the Digest
header lookup and digest equality, then the RFC 2822 date parse and
live freshness, then cryptographic verification, returning the first
failure's error; on success it returns the ready-to-cache record. -/
theorem C6_pipeline_order {J L : Type} (c : KeygenClient) (ext : Ext J L)
    (m : String) (u : Url) (hs : List (String × String)) (t : String) :
    (∀ e, fromResponse ext.digestOf m u hs t = Except.error e →
      verifyResponse c ext m u hs t = Except.error e) ∧
    (∀ sig, fromResponse ext.digestOf m u hs t = Except.ok sig →
      (headerGet hs "digest" = none →
        verifyResponse c ext m u hs t
          = Except.error (Error.BadResponse "Missing header: Digest")) ∧
      (∀ rd, headerGet hs "digest" = some rd → sig.digest ≠ rd →
        verifyResponse c ext m u hs t
          = Except.error (Error.BadResponse "Digest didn't match")) ∧
      (∀ rd, headerGet hs "digest" = some rd → sig.digest = rd →
        (ext.parseRfc2822 sig.date = none →
          verifyResponse c ext m u hs t
            = Except.error (Error.BadResponse "Invalid signature date")) ∧
        (∀ dt, ext.parseRfc2822 sig.date = some dt →
          (0 ≤ c.maxClockDrift ∧ numMinutes (ext.now - dt) > c.maxClockDrift →
            verifyResponse c ext m u hs t
              = Except.error (Error.BadResponse "Request date too old")) ∧
          (¬(0 ≤ c.maxClockDrift ∧ numMinutes (ext.now - dt) > c.maxClockDrift) →
            verifyResponse c ext m u hs t = signatureStep c ext sig t) ∧
          (∀ e, verifySignature c.verifyKey ext.keyValid ext.edVerify sig.data sig.signature
              = Except.error e →
            signatureStep c ext sig t
              = Except.error (Error.BadResponse "Invalid Signature")) ∧
          (verifySignature c.verifyKey ext.keyValid ext.edVerify sig.data sig.signature
              = Except.ok () →
            signatureStep c ext sig t
              = Except.ok { sig := sig.signature, target := sig.target, host := sig.host,
                            date := sig.date, body := t })))) := by
  refine ⟨fun e he => ?_,
    fun sig hsig => ⟨fun hng => ?_, fun rd hrd hne => ?_,
      fun rd hrd heq => ⟨fun hdn => ?_,
        fun dt hdt => ⟨fun hc => ?_, fun hc => ?_, fun e he2 => ?_, fun hok => ?_⟩⟩⟩⟩
  · simp [verifyResponse, he]
  · simp [verifyResponse, hsig, hng]
  · simp [verifyResponse, hsig, hrd, hne]
  · simp [verifyResponse, hsig, hrd, heq, hdn]
  · simp [verifyResponse, hsig, hrd, heq, hdt, hc]
  · simp [verifyResponse, hsig, hrd, heq, hdt, hc]
  · simp [signatureStep, he2]
  · simp [signatureStep, hok]

/-- Witness for C6 at the concrete fixtures: the pipeline reaches the
signature step when parsing, digest and freshness all pass. -/
theorem C6_witness :
    fromResponse extW.digestOf "GET" uW hsW "B" = Except.ok sigW ∧
    headerGet hsW "digest" = some "sha-256=X" ∧
    sigW.digest = "sha-256=X" ∧
    extW.parseRfc2822 sigW.date = some 0 ∧
    ¬(0 ≤ cW.maxClockDrift ∧ numMinutes (extW.now - 0) > cW.maxClockDrift) ∧
    verifyResponse cW extW "GET" uW hsW "B" = signatureStep cW extW sigW "B" :=
  ⟨rfl, rfl, rfl, rfl, by decide,
   ((((C6_pipeline_order cW extW "GET" uW hsW "B").2 sigW rfl).2.2
       "sha-256=X" rfl rfl).2 0 rfl).2.1 (by decide)⟩

/-- C7: the recomputed body digest is compared with the transport Digest
header by exact string equality; a mismatch yields the distinct
digest-mismatch BadResponse error, which differs from the
invalid-signature outcome. -/
theorem C7_digest_mismatch {J L : Type} (c : KeygenClient) (ext : Ext J L)
    (m : String) (u : Url) (hs : List (String × String)) (t : String)
    (sig : KeygenSig) (rd : String)
    (hsig : fromResponse ext.digestOf m u hs t = Except.ok sig)
    (hrd : headerGet hs "digest" = some rd)
    (hne : sig.digest ≠ rd) :
    verifyResponse c ext m u hs t = Except.error (Error.BadResponse "Digest didn't match") ∧
    Error.BadResponse "Digest didn't match" ≠ Error.BadResponse "Invalid Signature" := by
  refine ⟨?_, by decide⟩
  simp [verifyResponse, hsig, hrd, hne]

/-- Witness for C7 at the concrete fixtures: a Digest header one byte
away from the recomputed digest fails with the digest-mismatch error. -/
theorem C7_witness :
    fromResponse extW.digestOf "GET" uW hsY "B" = Except.ok sigW ∧
    headerGet hsY "digest" = some "sha-256=Y" ∧
    sigW.digest ≠ "sha-256=Y" ∧
    (verifyResponse cW extW "GET" uW hsY "B"
       = Except.error (Error.BadResponse "Digest didn't match") ∧
     Error.BadResponse "Digest didn't match" ≠ Error.BadResponse "Invalid Signature") :=
  ⟨rfl, rfl, by decide,
   C7_digest_mismatch cW extW "GET" uW hsY "B" sigW "sha-256=Y" rfl rfl (by decide)⟩

/-- C10: whenever verify_response succeeds, the body field of the
returned cache record is exactly the response text argument. -/
theorem C10_body_preserved {J L : Type} (c : KeygenClient) (ext : Ext J L)
    (m : String) (u : Url) (hs : List (String × String)) (t : String)
    (rc : KeygenResponseCache)
    (h : verifyResponse c ext m u hs t = Except.ok rc) : rc.body = t := by
  cases hfr : fromResponse ext.digestOf m u hs t with
  | error e =>
      have hv : verifyResponse c ext m u hs t = Except.error e := by
        simp [verifyResponse, hfr]
      rw [hv] at h
      exact Except.noConfusion h
  | ok sig =>
    cases hdg : headerGet hs "digest" with
    | none =>
        have hv : verifyResponse c ext m u hs t
            = Except.error (Error.BadResponse "Missing header: Digest") := by
          simp [verifyResponse, hfr, hdg]
        rw [hv] at h
        exact Except.noConfusion h
    | some rd =>
      by_cases he : sig.digest = rd
      · cases hdt : ext.parseRfc2822 sig.date with
        | none =>
            have hv : verifyResponse c ext m u hs t
                = Except.error (Error.BadResponse "Invalid signature date") := by
              simp [verifyResponse, hfr, hdg, he, hdt]
            rw [hv] at h
            exact Except.noConfusion h
        | some dt =>
          by_cases hc : 0 ≤ c.maxClockDrift ∧ numMinutes (ext.now - dt) > c.maxClockDrift
          · rw [verifyResponse_stale c ext m u hs t sig rd dt hfr hdg he hdt hc] at h
            exact Except.noConfusion h
          · rw [verifyResponse_fresh c ext m u hs t sig rd dt hfr hdg he hdt hc] at h
            unfold signatureStep at h
            cases hv : verifySignature c.verifyKey ext.keyValid ext.edVerify
                sig.data sig.signature with
            | ok u2 =>
                rw [hv] at h
                injection h with h2
                rw [← h2]
            | error e2 =>
                rw [hv] at h
                exact Except.noConfusion h
      · have hv : verifyResponse c ext m u hs t
            = Except.error (Error.BadResponse "Digest didn't match") := by
          simp [verifyResponse, hfr, hdg, he]
        rw [hv] at h
        exact Except.noConfusion h

/-- Witness for C10: the all-pass fixture succeeds and returns the
record rcW whose body is the response text "B". -/
theorem C10_witness :
    verifyResponse cW extW "GET" uW hsW "B" = Except.ok rcW ∧ rcW.body = "B" :=
  ⟨rfl, C10_body_preserved cW extW "GET" uW hsW "B" rcW rfl⟩

end Keygen
